import Mathlib

/-!
Verification of the student-database CRUD application
(`src/student_database.py`).

The database table `students` is modelled as a `Store`: a list of
`Student` records together with the next identifier the store would
assign (PostgreSQL serial column).  Each data-access method of class
`StudentDatabase` is translated to a pure function from the store to a
result record carrying the Python return value, the new store, and
flags recording whether the write statement was executed and whether
the transaction was committed.  Driver-reported errors are injected
through a boolean `err` parameter; the unique-email constraint of the
schema is modelled explicitly, since it is the one database error the
program can trigger by itself.
-/

/-- One row of the `students` table. -/
structure Student where
  student_id : Int
  first_name : String
  last_name : String
  email : String
  enrollment_date : String
deriving DecidableEq, Repr

/-- The database state: the rows of the `students` table in insertion
order, plus the next value of the serial `student_id` column. -/
structure Store where
  students : List Student
  nextId : Int
deriving DecidableEq, Repr

/-- The rows matching `WHERE student_id = %s` (what `cursor.rowcount`
counts for the UPDATE/DELETE statements). -/
def rowsWithId (s : Store) (id : Int) : List Student :=
  s.students.filter (fun r => r.student_id = id)

/-- The existence-check query
`SELECT ... FROM students WHERE student_id = %s` followed by
`fetchone()`. -/
def findStudent (s : Store) (id : Int) : Option Student :=
  s.students.find? (fun r => r.student_id = id)

/-- Whether some row already holds this email
(the schema's `email text unique` constraint for an INSERT). -/
def emailExists (s : Store) (e : String) : Bool :=
  s.students.any (fun r => r.email = e)

/-- Whether a row other than `id` holds this email: the condition under
which `UPDATE students SET email ... WHERE student_id = id` violates
the unique-email constraint and the driver raises. -/
def emailConflict (s : Store) (id : Int) (e : String) : Bool :=
  s.students.any (fun r => r.student_id ≠ id && r.email = e)

/-- Result of `StudentDatabase.getAllStudents`: the fetched rows and
the (unchanged) store.  `err` injects a driver error on the SELECT,
which the method catches, returning `[]`. -/
def getAllStudents (err : Bool) (s : Store) : List Student × Store :=
  if err then ([], s)
  else (List.insertionSort (fun a b => a.student_id ≤ b.student_id) s.students, s)

/-- Result record of `StudentDatabase.addStudent`. -/
structure AddRes where
  newId : Option Int
  executed : Bool
  committed : Bool
  store : Store
deriving DecidableEq, Repr

/-- `StudentDatabase.addStudent`: parameterized INSERT returning the
new `student_id`; commit on success; on a driver error (injected `err`
or a unique-email violation) rollback and return `None`. -/
def addStudent (err : Bool) (s : Store) (fn ln em date : String) : AddRes :=
  if err || emailExists s em then
    { newId := none, executed := true, committed := false, store := s }
  else
    let sid := s.nextId
    { newId := some sid, executed := true, committed := true,
      store := { students := s.students ++ [⟨sid, fn, ln, em, date⟩],
                 nextId := s.nextId + 1 } }

/-- Which print branch `StudentDatabase.updateStudentEmail` reaches. -/
inductive UpdateOutcome
  | notFound
  | success
  | noChange
  | dbError
deriving DecidableEq, Repr

/-- Result record of `StudentDatabase.updateStudentEmail`: the boolean
the method returns, the branch reached, whether the UPDATE statement
was executed, whether the transaction was committed, and the store. -/
structure UpdateRes where
  retval : Bool
  outcome : UpdateOutcome
  executed : Bool
  committed : Bool
  store : Store
deriving DecidableEq, Repr

/-- `StudentDatabase.updateStudentEmail`: existence check first; if the
id is absent, return `False` without touching the store.  Otherwise
execute the UPDATE (which raises on a driver error or a unique-email
conflict, triggering rollback), commit, and return `True` iff
`cursor.rowcount > 0`. -/
def updateStudentEmail (err : Bool) (s : Store) (id : Int) (e : String) : UpdateRes :=
  match findStudent s id with
  | none =>
      { retval := false, outcome := .notFound, executed := false,
        committed := false, store := s }
  | some _ =>
      if err || emailConflict s id e then
        { retval := false, outcome := .dbError, executed := true,
          committed := false, store := s }
      else
        let s' : Store :=
          { s with students :=
              s.students.map (fun r =>
                if r.student_id = id then { r with email := e } else r) }
        if (rowsWithId s id).length > 0 then
          { retval := true, outcome := .success, executed := true,
            committed := true, store := s' }
        else
          { retval := false, outcome := .noChange, executed := true,
            committed := true, store := s' }

/-- Result record of `StudentDatabase.deleteStudent`. -/
structure DeleteRes where
  retval : Bool
  outcome : UpdateOutcome
  executed : Bool
  committed : Bool
  store : Store
deriving DecidableEq, Repr

/-- `StudentDatabase.deleteStudent`: existence check first; if absent,
return `False` without touching the store.  Otherwise execute the
DELETE (rollback on a driver error), commit, and return `True` iff
`cursor.rowcount > 0`. -/
def deleteStudent (err : Bool) (s : Store) (id : Int) : DeleteRes :=
  match findStudent s id with
  | none =>
      { retval := false, outcome := .notFound, executed := false,
        committed := false, store := s }
  | some _ =>
      if err then
        { retval := false, outcome := .dbError, executed := true,
          committed := false, store := s }
      else
        let s' : Store :=
          { s with students := s.students.filter (fun r => r.student_id ≠ id) }
        if (rowsWithId s id).length > 0 then
          { retval := true, outcome := .success, executed := true,
            committed := true, store := s' }
        else
          { retval := false, outcome := .noChange, executed := true,
            committed := true, store := s' }

/-- Well-formedness of a store, maintained by the schema: every id is
below the serial counter, ids are unique (primary key), and emails are
unique (unique constraint). -/
def Store.WF (s : Store) : Prop :=
  (∀ r ∈ s.students, r.student_id < s.nextId) ∧
  s.students.Pairwise (fun a b => a.student_id ≠ b.student_id) ∧
  s.students.Pairwise (fun a b => a.email ≠ b.email)

instance (s : Store) : Decidable s.WF := by
  unfold Store.WF
  infer_instance

/-!
The interactive shell (`main`).  Each menu branch is translated to a
flow function over the raw strings the operator types; the stripping,
lowercasing, integer parsing and date validation the shell performs
are modelled explicitly.
-/

/-- Python `str.strip()`: drop leading and trailing whitespace. -/
def pyStrip (s : String) : String :=
  String.mk (((s.data.dropWhile Char.isWhitespace).reverse.dropWhile
      Char.isWhitespace).reverse)

/-- Python `str.lower()` (modelled on the ASCII letters, which is all
the shell ever compares against). -/
def pyLower (s : String) : String :=
  String.mk (s.data.map Char.toLower)

/-- A nonempty run of decimal digits. -/
def isDigits (l : List Char) : Bool :=
  !l.isEmpty && l.all Char.isDigit

/-- Decimal value of a digit run. -/
def charsToNat (l : List Char) : Nat :=
  l.foldl (fun a c => a * 10 + (c.toNat - 48)) 0

/-- Split a character list at every dash, like `str.split("-")`. -/
def splitOnDash : List Char → List (List Char)
  | [] => [[]]
  | c :: cs =>
      if c = '-' then [] :: splitOnDash cs
      else
        match splitOnDash cs with
        | [] => [[c]]
        | g :: gs => (c :: g) :: gs

/-- Gregorian leap-year test, as `datetime` implements it. -/
def isLeapYear (y : Nat) : Bool :=
  (y % 4 == 0 && y % 100 != 0) || y % 400 == 0

/-- Number of days of month `m` in year `y` (`datetime` calendar). -/
def daysInMonth (y m : Nat) : Nat :=
  if m = 2 then (if isLeapYear y then 29 else 28)
  else if m = 4 ∨ m = 6 ∨ m = 9 ∨ m = 11 then 30
  else 31

/-- CPython `_strptime` group for `%Y`: exactly four decimal digits
(regex `\d\d\d\d`). -/
def matchY (l : List Char) : Bool :=
  l.length = 4 && l.all Char.isDigit

/-- CPython `_strptime` group for `%m`: regex
`1[0-2]|0[1-9]|[1-9]`, required to consume the whole dash-delimited
group (a leftover character would make the following literal dash or
the end-of-input check of `strptime` fail). -/
def matchM (l : List Char) : Bool :=
  match l with
  | [c] => '1' ≤ c && c ≤ '9'
  | [c1, c2] =>
      (c1 = '1' && '0' ≤ c2 && c2 ≤ '2') ||
      (c1 = '0' && '1' ≤ c2 && c2 ≤ '9')
  | _ => false

/-- CPython `_strptime` group for `%d`: regex
`3[01]|[12]\d|0[1-9]|[1-9]| [1-9]` (note the space-digit alternative),
required to consume the whole dash-delimited group. -/
def matchD (l : List Char) : Bool :=
  match l with
  | [c] => '1' ≤ c && c ≤ '9'
  | [' ', c] => '1' ≤ c && c ≤ '9'
  | [c1, c2] =>
      (c1 = '3' && (c2 = '0' || c2 = '1')) ||
      ((c1 = '1' || c1 = '2') && c2.isDigit) ||
      (c1 = '0' && '1' ≤ c2 && c2 ≤ '9')
  | _ => false

/-- `datetime.strptime(str, "%Y-%m-%d")`: the full string must match
the CPython regex `\d\d\d\d` `-` `(1[0-2]|0[1-9]|[1-9])` `-`
`(3[01]|[12]\d|0[1-9]|[1-9]| [1-9])`, and the `datetime` constructor
then validates the year range (MINYEAR 1 to MAXYEAR 9999) and the day
against the month's length; `none` models the `ValueError` the call
raises otherwise. -/
def parseDatePy (str : String) : Option (Nat × Nat × Nat) :=
  match splitOnDash str.data with
  | [ys, ms, ds] =>
    if matchY ys && matchM ms && matchD ds then
      let y := charsToNat ys
      let m := charsToNat ms
      let d := charsToNat (ds.filter Char.isDigit)
      if 1 ≤ y && y ≤ 9999 && 1 ≤ m && m ≤ 12 && 1 ≤ d && d ≤ daysInMonth y m then
        some (y, m, d)
      else none
    else none
  | _ => none

/-- Python `int(str)` on shell input: optional sign before decimal
digits, surrounding whitespace ignored; `none` models `ValueError`. -/
def pyInt (t : String) : Option Int :=
  match (pyStrip t).data with
  | '-' :: rest => if isDigits rest then some (-(charsToNat rest : Int)) else none
  | '+' :: rest => if isDigits rest then some ((charsToNat rest : Int)) else none
  | l => if isDigits l then some ((charsToNat l : Int)) else none

/-- Outcome of the "Add a new student" menu branch. -/
structure AddFlowRes where
  store : Store
  createCalled : Bool
  newId : Option Int
deriving DecidableEq, Repr

/-- Menu branch 2: strip the four inputs, validate the enrollment date
with `datetime.strptime`, and only on success call
`db.addStudent`; a `ValueError` aborts the branch locally. -/
def addStudentFlow (err : Bool) (s : Store) (fn ln em date : String) : AddFlowRes :=
  let d := pyStrip date
  match parseDatePy d with
  | none => { store := s, createCalled := false, newId := none }
  | some _ =>
      let r := addStudent err s (pyStrip fn) (pyStrip ln) (pyStrip em) d
      { store := r.store, createCalled := true, newId := r.newId }

/-- Outcome of the "Update student email" menu branch. -/
structure UpdateFlowRes where
  store : Store
  updateCalled : Bool
deriving DecidableEq, Repr

/-- Menu branch 3: parse the id with `int(...)` (a `ValueError` aborts
the branch), then call `db.updateStudentEmail`. -/
def updateEmailFlow (err : Bool) (s : Store) (idStr email : String) : UpdateFlowRes :=
  match pyInt (pyStrip idStr) with
  | none => { store := s, updateCalled := false }
  | some id =>
      let r := updateStudentEmail err s id (pyStrip email)
      { store := r.store, updateCalled := true }

/-- Outcome of the "Delete a student" menu branch. -/
structure DeleteFlowRes where
  store : Store
  deleteCalled : Bool
  cancelled : Bool
deriving DecidableEq, Repr

/-- Menu branch 4: parse the id with `int(...)` (a `ValueError` aborts
the branch), then ask for confirmation; `db.deleteStudent` is called
iff the stripped, lowercased response equals `yes`, any other
response cancels. -/
def deleteFlow (err : Bool) (s : Store) (idStr confirm : String) : DeleteFlowRes :=
  match pyInt (pyStrip idStr) with
  | none => { store := s, deleteCalled := false, cancelled := false }
  | some id =>
      if pyLower (pyStrip confirm) = "yes" then
        let r := deleteStudent err s id
        { store := r.store, deleteCalled := true, cancelled := false }
      else
        { store := s, deleteCalled := false, cancelled := true }

/-- One iteration of the menu loop: the stripped menu choice together
with the inputs that branch reads. -/
inductive Cmd
  | view
  | add (fn ln em date : String)
  | updateEmail (idStr email : String)
  | del (idStr confirm : String)
  | quit
  | invalid (choice : String)

/-- Effect of one non-exit menu iteration on the store. -/
def mainStep (s : Store) : Cmd → Store
  | .view => (getAllStudents false s).2
  | .add fn ln em d => (addStudentFlow false s fn ln em d).store
  | .updateEmail i e => (updateEmailFlow false s i e).store
  | .del i c => (deleteFlow false s i c).store
  | .quit => s
  | .invalid _ => s

/-- The menu loop: runs each scripted iteration until choice 5. -/
def mainLoop : Store → List Cmd → Store
  | s, [] => s
  | s, c :: cs =>
      match c with
      | .quit => s
      | _ => mainLoop (mainStep s c) cs

/-- Observable outcome of running `main` to completion: the process
exit status and whether the catch-all handler printed its error
message. -/
structure MainOutcome where
  exitCode : Nat
  errorPrinted : Bool
deriving DecidableEq, Repr

/-- `main`: when the initial connection fails, `StudentDatabase`
re-raises, the catch-all `except` prints an error message, and the
function returns normally; otherwise the loop runs and the connection
is closed.  In both cases the process exits with status 0, since
`main` never calls `sys.exit`. -/
def mainRun (connectOk : Bool) (s0 : Store) (script : List Cmd) : MainOutcome × Store :=
  if connectOk then
    ({ exitCode := 0, errorPrinted := false }, mainLoop s0 script)
  else
    ({ exitCode := 0, errorPrinted := true }, s0)

/-!
Sample stores used by the witnesses.
-/

/-- A well-formed one-row store (the spec's scenario row). -/
def sampleStore : Store :=
  { students := [⟨1, "Ada", "Lovelace", "ada@x.com", "1990-01-01"⟩], nextId := 2 }

/-- A well-formed two-row store. -/
def sampleStore2 : Store :=
  { students := [⟨1, "Ada", "Lovelace", "ada@x.com", "1990-01-01"⟩,
                 ⟨2, "Grace", "Hopper", "grace@x.com", "1991-02-02"⟩], nextId := 3 }

instance : IsTotal Student (fun a b => a.student_id ≤ b.student_id) :=
  ⟨fun a b => Int.le_total a.student_id b.student_id⟩

instance : IsTrans Student (fun a b => a.student_id ≤ b.student_id) :=
  ⟨fun _ _ _ h h' => le_trans h h'⟩

/-- C3: an identifier absent from the store makes `updateStudentEmail`
return failure with the store untouched and no UPDATE executed. -/
theorem updateStudentEmail_absent_no_write (err : Bool) (s : Store) (id : Int) (e : String)
    (h : findStudent s id = none) :
    (updateStudentEmail err s id e).retval = false ∧
    (updateStudentEmail err s id e).store = s ∧
    (updateStudentEmail err s id e).executed = false := by
  simp [updateStudentEmail, h]

theorem updateStudentEmail_absent_no_write_witness :
    findStudent sampleStore 99 = none ∧
    ((updateStudentEmail false sampleStore 99 "new@x.com").retval = false ∧
     (updateStudentEmail false sampleStore 99 "new@x.com").store = sampleStore ∧
     (updateStudentEmail false sampleStore 99 "new@x.com").executed = false) :=
  ⟨by decide, updateStudentEmail_absent_no_write false sampleStore 99 "new@x.com" (by decide)⟩

/-- C4: an identifier absent from the store makes `deleteStudent`
return failure with the store untouched and no DELETE executed. -/
theorem deleteStudent_absent_no_write (err : Bool) (s : Store) (id : Int)
    (h : findStudent s id = none) :
    (deleteStudent err s id).retval = false ∧
    (deleteStudent err s id).store = s ∧
    (deleteStudent err s id).executed = false := by
  simp [deleteStudent, h]

theorem deleteStudent_absent_no_write_witness :
    findStudent sampleStore 99 = none ∧
    ((deleteStudent false sampleStore 99).retval = false ∧
     (deleteStudent false sampleStore 99).store = sampleStore ∧
     (deleteStudent false sampleStore 99).executed = false) :=
  ⟨by decide, deleteStudent_absent_no_write false sampleStore 99 (by decide)⟩

/-- C5: `addStudent` commits and returns the freshly assigned
identifier when the INSERT succeeds; on a database error (injected or
a unique-email violation) it rolls back, leaves the store in its prior
state, and returns no identifier. -/
theorem addStudent_commit_or_rollback (err : Bool) (s : Store) (fn ln em d : String) :
    ((err || emailExists s em) = true →
      (addStudent err s fn ln em d).newId = none ∧
      (addStudent err s fn ln em d).store = s ∧
      (addStudent err s fn ln em d).committed = false) ∧
    ((err || emailExists s em) = false →
      (addStudent err s fn ln em d).newId = some s.nextId ∧
      (addStudent err s fn ln em d).committed = true ∧
      (addStudent err s fn ln em d).store.students
        = s.students ++ [⟨s.nextId, fn, ln, em, d⟩]) := by
  constructor <;> intro h <;> simp [addStudent, h]

theorem addStudent_commit_or_rollback_witness :
    (false || emailExists sampleStore "ada@x.com") = true ∧
    ((addStudent false sampleStore "Eva" "Ng" "ada@x.com" "2001-05-05").newId = none ∧
     (addStudent false sampleStore "Eva" "Ng" "ada@x.com" "2001-05-05").store = sampleStore ∧
     (addStudent false sampleStore "Eva" "Ng" "ada@x.com" "2001-05-05").committed = false) :=
  ⟨by decide,
   (addStudent_commit_or_rollback false sampleStore "Eva" "Ng" "ada@x.com" "2001-05-05").1
     (by decide)⟩

/-- C6: `getAllStudents` returns the rows ordered by `student_id`
ascending (a sorted permutation of the table, possibly empty), leaves
the store unchanged, and on a query error catches it and returns the
empty list. -/
theorem getAllStudents_sorted_readonly (err : Bool) (s : Store) :
    (getAllStudents err s).2 = s ∧
    (getAllStudents false s).1.Perm s.students ∧
    (getAllStudents false s).1.Sorted (fun a b => a.student_id ≤ b.student_id) ∧
    (getAllStudents true s).1 = [] := by
  refine ⟨?_, ?_, ?_, rfl⟩
  · cases err <;> rfl
  · simpa [getAllStudents] using
      List.perm_insertionSort (fun a b : Student => a.student_id ≤ b.student_id) s.students
  · simpa [getAllStudents] using
      List.sorted_insertionSort (fun a b : Student => a.student_id ≤ b.student_id) s.students

/-- C2: the process exit status is 0 on a normal run; when the initial
connection fails, the run either exits non-zero or prints the
equivalent error message (the code does the latter: the catch-all
handler prints the message and `main` returns normally). -/
theorem main_exit_code_spec (s0 : Store) (script : List Cmd) :
    ((mainRun true s0 script).1.exitCode = 0 ∧
     (mainRun true s0 script).1.errorPrinted = false) ∧
    ((mainRun false s0 script).1.exitCode ≠ 0 ∨
     (mainRun false s0 script).1.errorPrinted = true) :=
  ⟨⟨rfl, rfl⟩, Or.inr rfl⟩

/-- C8: in the AddStudent menu branch, an enrollment date that fails
the `strptime` ISO validation aborts the branch locally: `addStudent`
is never called and the store is untouched. -/
theorem addFlow_invalid_date_aborts (err : Bool) (s : Store) (fn ln em date : String)
    (h : parseDatePy (pyStrip date) = none) :
    (addStudentFlow err s fn ln em date).createCalled = false ∧
    (addStudentFlow err s fn ln em date).store = s := by
  simp [addStudentFlow, h]

theorem addFlow_invalid_date_aborts_witness :
    parseDatePy (pyStrip "2020-13-01") = none ∧
    ((addStudentFlow false sampleStore "Eva" "Ng" "eva@x.com" "2020-13-01").createCalled = false ∧
     (addStudentFlow false sampleStore "Eva" "Ng" "eva@x.com" "2020-13-01").store = sampleStore) :=
  ⟨by decide,
   addFlow_invalid_date_aborts false sampleStore "Eva" "Ng" "eva@x.com" "2020-13-01" (by decide)⟩

/-- C9 as stated is false: the shell strips and lowercases the
confirmation before comparing, so the response "YES" — which is not
the literal string "yes" — still triggers `deleteStudent`. -/
theorem deleteFlow_literal_yes_counterexample :
    (deleteFlow false sampleStore "1" "YES").deleteCalled = true ∧
    ("YES" : String) ≠ "yes" := by
  constructor
  · decide
  · decide

/-- C9 (amended): in the DeleteStudent menu branch (with a parseable
identifier), `deleteStudent` is invoked exactly when the response,
stripped of surrounding whitespace and lowercased, equals "yes"; any
other response cancels the deletion and leaves the store untouched. -/
theorem deleteFlow_confirmation (err : Bool) (s : Store) (idStr confirm : String)
    (n : Int) (h : pyInt (pyStrip idStr) = some n) :
    ((deleteFlow err s idStr confirm).deleteCalled = true ↔
      pyLower (pyStrip confirm) = "yes") ∧
    (pyLower (pyStrip confirm) ≠ "yes" →
      (deleteFlow err s idStr confirm).deleteCalled = false ∧
      (deleteFlow err s idStr confirm).cancelled = true ∧
      (deleteFlow err s idStr confirm).store = s) := by
  constructor
  · constructor
    · intro hc
      by_contra hne
      simp [deleteFlow, h, hne] at hc
    · intro hc
      simp [deleteFlow, h, hc]
  · intro hc
    simp [deleteFlow, h, hc]

theorem deleteFlow_confirmation_witness :
    pyInt (pyStrip "1") = some 1 ∧
    (((deleteFlow false sampleStore "1" " Yes ").deleteCalled = true ↔
       pyLower (pyStrip " Yes ") = "yes") ∧
     (pyLower (pyStrip " Yes ") ≠ "yes" →
       (deleteFlow false sampleStore "1" " Yes ").deleteCalled = false ∧
       (deleteFlow false sampleStore "1" " Yes ").cancelled = true ∧
       (deleteFlow false sampleStore "1" " Yes ").store = sampleStore)) :=
  ⟨by decide, deleteFlow_confirmation false sampleStore "1" " Yes " 1 (by decide)⟩

/-!
Helper lemmas for the claims about existing rows.
-/

/-- In a list with pairwise-distinct ids, an id held by a member
matches exactly one element of the id filter. -/
theorem length_filter_id_eq_one (id : Int) :
    ∀ (l : List Student),
      l.Pairwise (fun a b => a.student_id ≠ b.student_id) →
      ∀ r ∈ l, r.student_id = id →
      (l.filter (fun x => x.student_id = id)).length = 1 := by
  intro l
  induction l with
  | nil => intro _ r hr; cases hr
  | cons a t ih =>
      intro hpw r hr hid
      rcases List.pairwise_cons.mp hpw with ⟨ha, ht⟩
      rcases List.mem_cons.mp hr with rfl | hrt
      · have htnil : t.filter (fun x => decide (x.student_id = id)) = [] := by
          rw [List.filter_eq_nil_iff]
          intro x hx
          have := ha x hx
          simp only [decide_eq_true_eq]
          omega
        simp [List.filter_cons, hid, htnil]
      · have hane : ¬(a.student_id = id) := by
          have := ha r hrt
          omega
        simp only [List.filter_cons, hane, decide_eq_true_eq, if_false]
        exact ih ht r hrt hid

/-- With pairwise-distinct ids, a found id matches exactly one row. -/
theorem length_rowsWithId_eq_one (s : Store) (id : Int) (r : Student)
    (hpw : s.students.Pairwise (fun a b => a.student_id ≠ b.student_id))
    (hf : findStudent s id = some r) :
    (rowsWithId s id).length = 1 := by
  have hr : r ∈ s.students := List.mem_of_find?_eq_some hf
  have hid : r.student_id = id := by
    have := List.find?_some hf
    simpa using this
  exact length_filter_id_eq_one id s.students hpw r hr hid

/-- With pairwise-distinct ids and emails, updating a row to its own
current email never collides with another row's email. -/
theorem emailConflict_self_eq_false (s : Store) (r : Student)
    (hpwem : s.students.Pairwise (fun a b => a.email ≠ b.email))
    (hr : r ∈ s.students) :
    emailConflict s r.student_id r.email = false := by
  unfold emailConflict
  rw [List.any_eq_false]
  intro x hx
  simp only [Bool.and_eq_true, decide_eq_true_eq, not_and, ne_eq, Bool.not_eq_true,
    decide_eq_false_iff_not]
  intro hne heq
  by_cases hxr : x = r
  · subst hxr
    simp at hne
  · have hsym : Symmetric (fun a b : Student => a.email ≠ b.email) :=
      fun _ _ h => Ne.symm h
    exact (List.Pairwise.forall hsym hpwem hx hr hxr) heq

/-- Appending a row with a fresh id makes the id lookup return it. -/
theorem find_append_fresh (x : Student) :
    ∀ (l : List Student), (∀ r ∈ l, r.student_id ≠ x.student_id) →
      (l ++ [x]).find? (fun r => r.student_id = x.student_id) = some x := by
  intro l
  induction l with
  | nil => simp
  | cons a t ih =>
      intro h
      have ha : ¬(a.student_id = x.student_id) := h a (List.mem_cons_self a t)
      simp only [List.cons_append]
      rw [List.find?_cons_of_neg]
      · exact ih (fun r hr => h r (List.mem_cons_of_mem a hr))
      · simpa using ha

/-- C1: for an identifier the existence check finds (no driver error
raised by the UPDATE), `updateStudentEmail` returns `True` exactly
when the UPDATE affected exactly one row, and would report "no change"
with a `False` return were the affected count not one. -/
theorem updateStudentEmail_success_iff_one_row (err : Bool) (s : Store) (id : Int)
    (e : String) (r : Student) (hwf : s.WF) (hf : findStudent s id = some r)
    (herr : err = false) (hconf : emailConflict s id e = false) :
    ((updateStudentEmail err s id e).retval = true ↔ (rowsWithId s id).length = 1) ∧
    ((rowsWithId s id).length ≠ 1 →
      (updateStudentEmail err s id e).retval = false ∧
      (updateStudentEmail err s id e).outcome = UpdateOutcome.noChange) := by
  have h1 : (rowsWithId s id).length = 1 :=
    length_rowsWithId_eq_one s id r hwf.2.1 hf
  subst herr
  refine ⟨?_, fun hne => absurd h1 hne⟩
  simp [updateStudentEmail, hf, hconf, h1]

theorem updateStudentEmail_success_iff_one_row_witness :
    (sampleStore.WF ∧
     findStudent sampleStore 1 = some ⟨1, "Ada", "Lovelace", "ada@x.com", "1990-01-01"⟩ ∧
     emailConflict sampleStore 1 "ada@new.com" = false) ∧
    (((updateStudentEmail false sampleStore 1 "ada@new.com").retval = true ↔
       (rowsWithId sampleStore 1).length = 1) ∧
     ((rowsWithId sampleStore 1).length ≠ 1 →
       (updateStudentEmail false sampleStore 1 "ada@new.com").retval = false ∧
       (updateStudentEmail false sampleStore 1 "ada@new.com").outcome
         = UpdateOutcome.noChange)) :=
  ⟨⟨by decide, by decide, by decide⟩,
   updateStudentEmail_success_iff_one_row false sampleStore 1 "ada@new.com"
     ⟨1, "Ada", "Lovelace", "ada@x.com", "1990-01-01"⟩ (by decide) (by decide) rfl (by decide)⟩

/-- C7: a successful insert, immediately looked up by the returned
identifier, yields a record whose fields are exactly the inserted
ones. -/
theorem addStudent_then_lookup (s : Store) (fn ln em d : String) (i : Int)
    (hwf : s.WF) (hs : (addStudent false s fn ln em d).newId = some i) :
    findStudent (addStudent false s fn ln em d).store i
      = some ⟨i, fn, ln, em, d⟩ := by
  by_cases he : emailExists s em
  · simp [addStudent, he] at hs
  · have hi : i = s.nextId := by
      simp [addStudent, he] at hs
      omega
    subst hi
    simp only [addStudent, he, Bool.false_or, if_false, findStudent]
    exact find_append_fresh ⟨s.nextId, fn, ln, em, d⟩ s.students
      (fun r hr => ne_of_lt (hwf.1 r hr))

theorem addStudent_then_lookup_witness :
    (sampleStore.WF ∧
     (addStudent false sampleStore "Bob" "Hope" "bob@x.com" "2001-05-05").newId = some 2) ∧
    findStudent (addStudent false sampleStore "Bob" "Hope" "bob@x.com" "2001-05-05").store 2
      = some ⟨2, "Bob", "Hope", "bob@x.com", "2001-05-05"⟩ :=
  ⟨⟨by decide, by decide⟩,
   addStudent_then_lookup sampleStore "Bob" "Hope" "bob@x.com" "2001-05-05" 2
     (by decide) (by decide)⟩

/-- C10: updating a present student to their current email still
executes the UPDATE, commits, and returns `True`: the code never
requires the new email to differ from the old one. -/
theorem updateStudentEmail_same_email_succeeds (s : Store) (r : Student)
    (hwf : s.WF) (hr : r ∈ s.students) :
    (updateStudentEmail false s r.student_id r.email).retval = true ∧
    (updateStudentEmail false s r.student_id r.email).outcome = UpdateOutcome.success ∧
    (updateStudentEmail false s r.student_id r.email).executed = true ∧
    (updateStudentEmail false s r.student_id r.email).committed = true := by
  obtain ⟨r', hr'⟩ : ∃ r', findStudent s r.student_id = some r' := by
    cases hfind : findStudent s r.student_id with
    | some x => exact ⟨x, rfl⟩
    | none =>
        have := List.find?_eq_none.mp hfind r hr
        simp at this
  have hconf : emailConflict s r.student_id r.email = false :=
    emailConflict_self_eq_false s r hwf.2.2 hr
  have hmem : r ∈ rowsWithId s r.student_id :=
    List.mem_filter.mpr ⟨hr, by simp⟩
  have hpos : 0 < (rowsWithId s r.student_id).length := List.length_pos_of_mem hmem
  simp [updateStudentEmail, hr', hconf, hpos]

theorem updateStudentEmail_same_email_succeeds_witness :
    (sampleStore.WF ∧
     (⟨1, "Ada", "Lovelace", "ada@x.com", "1990-01-01"⟩ : Student) ∈ sampleStore.students) ∧
    ((updateStudentEmail false sampleStore
        (⟨1, "Ada", "Lovelace", "ada@x.com", "1990-01-01"⟩ : Student).student_id
        (⟨1, "Ada", "Lovelace", "ada@x.com", "1990-01-01"⟩ : Student).email).retval = true ∧
     (updateStudentEmail false sampleStore
        (⟨1, "Ada", "Lovelace", "ada@x.com", "1990-01-01"⟩ : Student).student_id
        (⟨1, "Ada", "Lovelace", "ada@x.com", "1990-01-01"⟩ : Student).email).outcome
          = UpdateOutcome.success ∧
     (updateStudentEmail false sampleStore
        (⟨1, "Ada", "Lovelace", "ada@x.com", "1990-01-01"⟩ : Student).student_id
        (⟨1, "Ada", "Lovelace", "ada@x.com", "1990-01-01"⟩ : Student).email).executed = true ∧
     (updateStudentEmail false sampleStore
        (⟨1, "Ada", "Lovelace", "ada@x.com", "1990-01-01"⟩ : Student).student_id
        (⟨1, "Ada", "Lovelace", "ada@x.com", "1990-01-01"⟩ : Student).email).committed = true) :=
  ⟨⟨by decide, by decide⟩,
   updateStudentEmail_same_email_succeeds sampleStore
     ⟨1, "Ada", "Lovelace", "ada@x.com", "1990-01-01"⟩ (by decide) (by decide)⟩
